import Mathlib

/-!
Shallow embedding of the LingoLens simulator (src/app.py): session state,
the image-analysis adapter, the speech-synthesis adapter, the audio-playback
block and the pronounce-button rendering, together with theorems checking the
specification claims against them.

External effects are made explicit: each call into the rendering framework
that shows an error message is modelled as an element appended to a list of
emitted messages, and each call into an external service is a parameter whose
outcome is either a value or a raised exception.
-/

/-- Raw byte payloads (image bytes, audio bytes), each byte a number below 256;
the programs under study never inspect individual bytes. -/
abbrev Bytes := List Nat

/-- Python exception values as the adapters distinguish them: the JSON decode
error class caught at src/app.py line 95, the file-not-found class caught at
line 207, and every other exception, all carrying the text that str(e) yields. -/
inductive PyExn where
  | jsonDecodeError (msg : String)
  | fileNotFoundError (msg : String)
  | other (msg : String)
deriving Repr, DecidableEq

/-- The text str(e) renders for an exception. -/
def PyExn.msg : PyExn → String
  | .jsonDecodeError m => m
  | .fileNotFoundError m => m
  | .other m => m

/-- Outcome of running a piece of Python code: a returned value or a raised
exception propagating out. -/
inductive PyOutcome (α : Type) where
  | val (a : α)
  | raised (e : PyExn)
deriving Repr, DecidableEq

/-- JSON values as Python json.loads materialises them, with numbers modelled
as integers (the adapter contract never relies on fractional numerals). -/
inductive Json where
  | null
  | bool (b : Bool)
  | num (n : Int)
  | str (s : String)
  | arr (elems : List Json)
  | obj (members : List (String × Json))
deriving Repr, BEq

/-- Whitespace skipping as the JSON grammar allows between tokens. -/
def skipWs : List Char → List Char
  | c :: cs => if c = ' ' ∨ c = '\t' ∨ c = '\n' ∨ c = '\r' then skipWs cs else c :: cs
  | [] => []

/-- Body of a JSON string after the opening quote, supporting the plain
characters and single-character escapes the app exchanges (no \u escapes). -/
def parseStringBody : Nat → List Char → List Char → Option (String × List Char)
  | 0, _, _ => none
  | _ + 1, _, [] => none
  | fuel + 1, acc, c :: rest =>
    if c = '"' then some (String.mk acc.reverse, rest)
    else if c = '\\' then
      match rest with
      | [] => none
      | e :: rest2 =>
        if e = '"' then parseStringBody fuel ('"' :: acc) rest2
        else if e = '\\' then parseStringBody fuel ('\\' :: acc) rest2
        else if e = '/' then parseStringBody fuel ('/' :: acc) rest2
        else if e = 'n' then parseStringBody fuel ('\n' :: acc) rest2
        else if e = 't' then parseStringBody fuel ('\t' :: acc) rest2
        else if e = 'r' then parseStringBody fuel ('\r' :: acc) rest2
        else none
    else if c.toNat < 32 then none
    else parseStringBody fuel (c :: acc) rest

/-- Leading decimal digits of a character stream, with the remainder. -/
def takeDigits : List Char → List Char × List Char
  | c :: cs =>
    if c.isDigit then
      let (ds, rest) := takeDigits cs
      (c :: ds, rest)
    else ([], c :: cs)
  | [] => ([], [])

/-- Digit list to the natural number it denotes. -/
def digitsToNat (ds : List Char) : Nat :=
  ds.foldl (fun n c => n * 10 + (c.toNat - 48)) 0

mutual

/-- One JSON value from the head of the stream (fuelled recursive descent). -/
def parseValue : Nat → List Char → Option (Json × List Char)
  | 0, _ => none
  | fuel + 1, cs =>
    match skipWs cs with
    | [] => none
    | c :: rest =>
      if c = '"' then
        match parseStringBody (rest.length + 1) [] rest with
        | some (s, rest2) => some (Json.str s, rest2)
        | none => none
      else if c = '[' then
        match skipWs rest with
        | ']' :: rest2 => some (Json.arr [], rest2)
        | rest2 => parseArrayElems fuel [] rest2
      else if c = '{' then
        match skipWs rest with
        | '}' :: rest2 => some (Json.obj [], rest2)
        | rest2 => parseObjMembers fuel [] rest2
      else if c = 't' then
        match rest with
        | 'r' :: 'u' :: 'e' :: rest2 => some (Json.bool true, rest2)
        | _ => none
      else if c = 'f' then
        match rest with
        | 'a' :: 'l' :: 's' :: 'e' :: rest2 => some (Json.bool false, rest2)
        | _ => none
      else if c = 'n' then
        match rest with
        | 'u' :: 'l' :: 'l' :: rest2 => some (Json.null, rest2)
        | _ => none
      else if c = '-' then
        match takeDigits rest with
        | ([], _) => none
        | (ds, rest2) => some (Json.num (-(digitsToNat ds : Int)), rest2)
      else if c.isDigit then
        match takeDigits (c :: rest) with
        | ([], _) => none
        | (ds, rest2) => some (Json.num (digitsToNat ds : Int), rest2)
      else none

/-- Comma-separated array elements up to the closing bracket. -/
def parseArrayElems : Nat → List Json → List Char → Option (Json × List Char)
  | 0, _, _ => none
  | fuel + 1, acc, cs =>
    match parseValue fuel cs with
    | none => none
    | some (v, rest) =>
      match skipWs rest with
      | ',' :: rest2 => parseArrayElems fuel (v :: acc) rest2
      | ']' :: rest2 => some (Json.arr (v :: acc).reverse, rest2)
      | _ => none

/-- Comma-separated object members up to the closing brace. -/
def parseObjMembers : Nat → List (String × Json) → List Char → Option (Json × List Char)
  | 0, _, _ => none
  | fuel + 1, acc, cs =>
    match skipWs cs with
    | '"' :: rest =>
      match parseStringBody (rest.length + 1) [] rest with
      | none => none
      | some (k, rest2) =>
        match skipWs rest2 with
        | ':' :: rest3 =>
          match parseValue fuel rest3 with
          | none => none
          | some (v, rest4) =>
            match skipWs rest4 with
            | ',' :: rest5 => parseObjMembers fuel ((k, v) :: acc) rest5
            | '}' :: rest5 => some (Json.obj ((k, v) :: acc).reverse, rest5)
            | _ => none
        | _ => none
    | _ => none

end

/-- Python json.loads on a whole string: one JSON value followed by nothing
but whitespace; none models a raised json.JSONDecodeError. -/
def json_loads (s : String) : Option Json :=
  match parseValue (2 * s.length + 8) s.data with
  | some (v, rest) => if skipWs rest = [] then some v else none
  | none => none

/-- Python str.strip whitespace set (ASCII). -/
def isPyWs (c : Char) : Bool :=
  c = ' ' || c = '\t' || c = '\n' || c = '\r' || c = '\x0b' || c = '\x0c'

/-- Python str.strip: remove leading and trailing whitespace. -/
def py_strip (s : String) : String :=
  String.mk (((s.data.dropWhile isPyWs).reverse.dropWhile isPyWs).reverse)

/-- First list is a leading segment of the second. -/
def startsWithChars : List Char → List Char → Bool
  | [], _ => true
  | _ :: _, [] => false
  | p :: ps, c :: cs => p = c && startsWithChars ps cs

/-- Python str.startswith. -/
def py_startswith (s pat : String) : Bool := startsWithChars pat.data s.data

/-- Python str.endswith. -/
def py_endswith (s pat : String) : Bool := startsWithChars pat.data.reverse s.data.reverse

/-- The inner try block of analyze_image_for_words (src/app.py lines 85 to 94),
given the outcome of evaluating response.text: strip the text, require a
bracketed payload, and run json.loads on it. The JSON decode error raised by a
failed json.loads propagates out of this block; the non-bracketed case emits
one error message and returns an empty list. -/
def analyze_inner_block (respText : PyOutcome String) : PyOutcome Json × List String :=
  match respText with
  | .raised e => (.raised e, [])
  | .val t =>
    let response_text := py_strip t
    if py_startswith response_text "[" && py_endswith response_text "]" then
      match json_loads response_text with
      | some objects_list => (.val objects_list, [])
      | none => (.raised (.jsonDecodeError response_text), [])
    else
      (.val (Json.arr []), ["AI响应格式不正确"])

/-- The inner try with its except json.JSONDecodeError handler
(src/app.py lines 95 to 97). -/
def analyze_inner_handled (respText : PyOutcome String) : PyOutcome Json × List String :=
  match analyze_inner_block respText with
  | (.raised (.jsonDecodeError _), errs) =>
    (.val (Json.arr []), errs ++ ["无法解析AI响应为JSON格式"])
  | out => out

/-- Body of the outer try of analyze_image_for_words (src/app.py lines 68 to
97): decode the image bytes, invoke the model, then parse its response.
decode models Image.open, generate models model.generate_content, and
respText models the response.text access inside the inner try. -/
def analyze_outer_block (decode : PyOutcome Unit) (generate : PyOutcome Unit)
    (respText : PyOutcome String) : PyOutcome Json × List String :=
  match decode with
  | .raised e => (.raised e, [])
  | .val _ =>
    match generate with
    | .raised e => (.raised e, [])
    | .val _ => analyze_inner_handled respText

/-- analyze_image_for_words (src/app.py lines 58 to 101): the outer block
wrapped in the except Exception handler, which emits one error message built
from str(e) and returns an empty list. -/
def analyze_image_for_words (decode : PyOutcome Unit) (generate : PyOutcome Unit)
    (respText : PyOutcome String) : PyOutcome Json × List String :=
  match analyze_outer_block decode generate respText with
  | (.raised e, errs) => (.val (Json.arr []), errs ++ ["分析图片时发生错误: " ++ e.msg])
  | out => out

/-- Voice gender constants of the synthesis service. -/
inductive SsmlVoiceGender where
  | female
  | male
  | neutral
deriving Repr, DecidableEq

/-- Audio encoding constants of the synthesis service. -/
inductive AudioEncoding where
  | mp3
  | linear16
  | oggOpus
deriving Repr, DecidableEq

/-- texttospeech.VoiceSelectionParams as constructed at src/app.py lines 31
to 35. -/
structure VoiceSelectionParams where
  language_code : String
  name : String
  ssml_gender : SsmlVoiceGender
deriving Repr, DecidableEq

/-- texttospeech.AudioConfig as constructed at src/app.py lines 38 to 42;
speaking_rate is an exact rational. -/
structure AudioConfig where
  audio_encoding : AudioEncoding
  speaking_rate : ℚ
  pitch : Int
deriving Repr, DecidableEq

/-- texttospeech.SynthesisInput (src/app.py line 28). -/
structure SynthesisInput where
  text : String
deriving Repr, DecidableEq

/-- The full argument bundle passed to client.synthesize_speech
(src/app.py lines 45 to 49). -/
structure SynthesizeSpeechRequest where
  input : SynthesisInput
  voice : VoiceSelectionParams
  audio_config : AudioConfig
deriving Repr, DecidableEq

/-- The request get_tts_audio builds for a given text: the synthesis input
carries the text, while voice and audio parameters are the fixed literals of
src/app.py lines 31 to 42. -/
def tts_request (text_to_speak : String) : SynthesizeSpeechRequest :=
  { input := { text := text_to_speak }
    voice := { language_code := "en-US", name := "en-US-Wavenet-F"
               ssml_gender := SsmlVoiceGender.female }
    audio_config := { audio_encoding := AudioEncoding.mp3
                      speaking_rate := 9 / 10, pitch := 0 } }

/-- get_tts_audio (src/app.py lines 13 to 56): build the client, build the
fixed-parameter request, call the service, and return response.audio_content;
any exception is caught, one error message is emitted, and None is returned.
clientInit models TextToSpeechClient() and synthesize models the remote
synthesize_speech call (returning the audio_content bytes). -/
def get_tts_audio (text_to_speak : String) (clientInit : PyOutcome Unit)
    (synthesize : SynthesizeSpeechRequest → PyOutcome Bytes) :
    PyOutcome (Option Bytes) × List String :=
  match clientInit with
  | .raised e => (.val none, ["文本转语音失败: " ++ e.msg])
  | .val _ =>
    match synthesize (tts_request text_to_speak) with
    | .val audio_content => (.val (some audio_content), [])
    | .raised e => (.val none, ["文本转语音失败: " ++ e.msg])

/-- Chat messages stored in st.session_state.conversation (rendered at
src/app.py lines 189 to 191). -/
structure ConversationMessage where
  role : String
  text : String
deriving Repr, DecidableEq

/-- st.session_state before the initialization block: each key may be absent
(none) or present with a value. current_image and audio_filename hold values
that may themselves be Python None. -/
structure RawSessionState where
  conversation : Option (List ConversationMessage)
  feedback_log : Option (List String)
  current_image : Option (Option Bytes)
  audio_filename : Option (Option String)
  is_recording : Option Bool
  analyzed_objects : Option Json

/-- The session-state initialization block (src/app.py lines 106 to 117): six
independent conditionals, each assigning a default only when its key is
absent. -/
def init_session_state (s0 : RawSessionState) : RawSessionState :=
  let s1 := if s0.conversation.isNone then { s0 with conversation := some [] } else s0
  let s2 := if s1.feedback_log.isNone then { s1 with feedback_log := some [] } else s1
  let s3 := if s2.current_image.isNone then { s2 with current_image := some none } else s2
  let s4 := if s3.audio_filename.isNone then { s3 with audio_filename := some none } else s3
  let s5 := if s4.is_recording.isNone then { s4 with is_recording := some false } else s4
  if s5.analyzed_objects.isNone then { s5 with analyzed_objects := some (Json.arr []) } else s5

/-- st.session_state after initialization: every key present. -/
structure SessionState where
  conversation : List ConversationMessage
  feedback_log : List String
  current_image : Option Bytes
  audio_filename : Option String
  is_recording : Bool
  analyzed_objects : Json
deriving Repr

/-- The camera_input handler body (src/app.py line 126): when a photo buffer
is delivered, store it as current_image. No other session field is written. -/
def capture_photo (s : SessionState) (img_file_buffer : Bytes) : SessionState :=
  { s with current_image := some img_file_buffer }

/-- The Analyze Photo for Words button handler (src/app.py lines 130 to 138):
when current_image is set, run the adapter on its bytes and store the result
wholesale into analyzed_objects. The adapter never raises, but a raised
outcome would propagate, so the handler outcome is itself a PyOutcome. -/
def analyze_click (s : SessionState) (decode generate : PyOutcome Unit)
    (respText : PyOutcome String) : PyOutcome SessionState × List String :=
  if s.current_image.isSome then
    match analyze_image_for_words decode generate respText with
    | (.val analysis_results, errs) =>
      (.val { s with analyzed_objects := analysis_results }, errs)
    | (.raised e, errs) => (.raised e, errs)
  else
    (.val s, [])

/-- The local filesystem as the playback block observes it: a finite map from
paths to file contents. -/
abbrev FileSystem := List (String × Bytes)

/-- Content of the file at a path, if it exists. -/
def fs_lookup : FileSystem → String → Option Bytes
  | [], _ => none
  | (p, b) :: rest, path => if p = path then some b else fs_lookup rest path

/-- os.path.exists on the modelled filesystem. -/
def os_path_exists (fs : FileSystem) (path : String) : Bool :=
  (fs_lookup fs path).isSome

/-- os.remove on the modelled filesystem; removing an absent path leaves the
filesystem unchanged, matching the bare except that swallows the error. -/
def os_remove (fs : FileSystem) (path : String) : FileSystem :=
  fs.filter (fun kv => !(kv.1 = path : Bool))

/-- The try/except/finally of the playback block (src/app.py lines 203 to
216), given the outcome of opening and reading the file: on success the bytes
are handed to st.audio, a FileNotFoundError yields one message, any other
exception yields one message with str(e), and the finally clause removes the
file on every one of these paths. The result is the filesystem after the
block, the emitted messages, and the bytes handed to playback, if any. -/
def playback_try (path : String) (read_outcome : PyOutcome Bytes)
    (fs : FileSystem) : FileSystem × List String × Option Bytes :=
  let handled : List String × Option Bytes :=
    match read_outcome with
    | .val audio_bytes => ([], some audio_bytes)
    | .raised (.fileNotFoundError _) => (["音频文件未找到"], none)
    | .raised e => (["播放音频时发生错误: " ++ e.msg], none)
  (os_remove fs path, handled.1, handled.2)

/-- The audio-player section of one render pass (src/app.py lines 202 to
216): the guard requires audio_filename to be truthy (a non-empty string) and
the file to exist; only then is the file opened, read, played and removed.
When the guard fails the whole block is skipped: nothing is read, nothing is
removed, and no message is emitted. -/
def audio_playback (s : SessionState) (fs : FileSystem) :
    FileSystem × List String × Option Bytes :=
  match s.audio_filename with
  | none => (fs, [], none)
  | some path =>
    if !(path = "" : Bool) && os_path_exists fs path then
      match fs_lookup fs path with
      | some audio_bytes => playback_try path (.val audio_bytes) fs
      | none => playback_try path (.raised (.fileNotFoundError path)) fs
    else
      (fs, [], none)

/-- Lookup in a decoded JSON object as a Python dict built by json.loads:
with a repeated key the last member wins. -/
def dict_get : List (String × Json) → String → Option Json
  | [], _ => none
  | (k, v) :: rest, key =>
    match dict_get rest key with
    | some v2 => some v2
    | none => if k = key then some v else none

/-- Subscript access obj[key] on a JSON value, defined when the value is an
object holding the key. -/
def Json.item (j : Json) (key : String) : Option Json :=
  match j with
  | .obj members => dict_get members key
  | _ => none

/-- The key expression of the per-object pronounce button (src/app.py line
157): the literal pronounce_ followed by the english_name entry of the
object, for objects whose english_name entry is a string. -/
def pronounce_key (obj : Json) : Option String :=
  match obj.item "english_name" with
  | some (Json.str english_name) => some ("pronounce_" ++ english_name)
  | _ => none

/-- A detected-object record as the analysis stores it. -/
def mugObject : Json :=
  Json.obj [("english_name", Json.str "mug"), ("chinese_name", Json.str "马克杯")]

/-- A session that has completed an analysis of photo A (bytes [1]). -/
def analyzedSession : SessionState :=
  { conversation := [], feedback_log := [], current_image := some [1]
    audio_filename := none, is_recording := false
    analyzed_objects := Json.arr [mugObject] }

/-- A session whose audio_filename points at the transient audio file. -/
def playbackSession : SessionState :=
  { conversation := [], feedback_log := [], current_image := none
    audio_filename := some "temp_audio.wav", is_recording := false
    analyzed_objects := Json.arr [] }

/-- A filesystem holding exactly the transient audio file. -/
def fsWithAudio : FileSystem := [("temp_audio.wav", [0, 1, 2])]

/-- Characterization of the adapter when decode and model call succeed and the
response text is delivered: behaviour is decided by the bracket check and
json.loads. -/
lemma analyze_on_text (t : String) :
    analyze_image_for_words (.val ()) (.val ()) (.val t) =
      if py_startswith (py_strip t) "[" && py_endswith (py_strip t) "]" then
        match json_loads (py_strip t) with
        | some v => (.val v, [])
        | none => (.val (Json.arr []), ["无法解析AI响应为JSON格式"])
      else (.val (Json.arr []), ["AI响应格式不正确"]) := by
  unfold analyze_image_for_words analyze_outer_block analyze_inner_handled analyze_inner_block
  cases h : (py_startswith (py_strip t) "[" && py_endswith (py_strip t) "]") with
  | true => cases hj : json_loads (py_strip t) <;> simp [h, hj]
  | false => simp [h]

/-- Removal really removes: the removed path no longer resolves. -/
lemma fs_lookup_os_remove (fs : FileSystem) (path : String) :
    fs_lookup (os_remove fs path) path = none := by
  induction fs with
  | nil => rfl
  | cons kv rest ih =>
    obtain ⟨p, b⟩ := kv
    by_cases hp : p = path
    · simpa [os_remove, hp] using ih
    · simpa [os_remove, fs_lookup, hp] using ih

/-- C1 counterexample: after a completed analysis of photo A, capturing photo
B (bytes [2]) leaves the previous analysis in analyzed_objects; it is not
empty at that moment, contrary to the claim. -/
theorem C1_capture_leaves_residue_counterexample :
    (capture_photo analyzedSession [2]).analyzed_objects = Json.arr [mugObject] ∧
    Json.arr [mugObject] ≠ Json.arr [] := by
  refine ⟨rfl, ?_⟩
  intro h
  simp [mugObject] at h

/-- C1 amended: capturing a new photo stores the buffer as current_image and
leaves analyzed_objects unchanged, so residual entries persist until the
analyze handler runs; the analyze handler then replaces analyzed_objects
wholesale with the adapter result. -/
theorem C1_capture_keeps_analysis_until_reanalyzed (s : SessionState) (img : Bytes)
    (decode generate : PyOutcome Unit) (respText : PyOutcome String) :
    (capture_photo s img).analyzed_objects = s.analyzed_objects ∧
    (capture_photo s img).current_image = some img ∧
    (capture_photo s img).conversation = s.conversation ∧
    (capture_photo s img).feedback_log = s.feedback_log ∧
    (capture_photo s img).audio_filename = s.audio_filename ∧
    (s.current_image.isSome = true →
      ∀ v errs, analyze_image_for_words decode generate respText = (.val v, errs) →
        analyze_click s decode generate respText =
          (.val { s with analyzed_objects := v }, errs)) := by
  refine ⟨rfl, rfl, rfl, rfl, rfl, fun h v errs hv => ?_⟩
  simp [analyze_click, h, hv]

/-- Witness for C1 amended: capturing photo B over the analyzed session keeps
the mug record, and a subsequent analysis returning an empty array replaces
analyzed_objects wholesale. -/
theorem C1_capture_keeps_analysis_until_reanalyzed_witness :
    (capture_photo analyzedSession [2]).analyzed_objects = Json.arr [mugObject] ∧
    analyze_click analyzedSession (.val ()) (.val ()) (.val "[]") =
      (.val { analyzedSession with analyzed_objects := Json.arr [] }, []) :=
  ⟨(C1_capture_keeps_analysis_until_reanalyzed analyzedSession [2]
      (.val ()) (.val ()) (.val "[]")).1,
   (C1_capture_keeps_analysis_until_reanalyzed analyzedSession [2]
      (.val ()) (.val ()) (.val "[]")).2.2.2.2.2 rfl (Json.arr []) [] rfl⟩

/-- C2 counterexample: the first render pass reads and deletes the transient
file, but a second playback attempt against the same stored path is skipped
entirely by the existence guard: it emits no message at all, contrary to the
claim that a LocalIOError-class message is shown. -/
theorem C2_second_attempt_silent_counterexample :
    audio_playback playbackSession fsWithAudio = ([], [], some [0, 1, 2]) ∧
    audio_playback playbackSession [] = ([], [], none) :=
  ⟨rfl, rfl⟩

/-- C2 amended: one render pass with the file present reads it and the
finally clause deletes it on every code path (success, not-found or other
error, removal failures ignored), so the file no longer exists afterwards; a
second playback attempt against the same path is skipped by the existence
guard, replaying no audio and emitting no message. -/
theorem C2_read_once_then_deleted (s : SessionState) (fs : FileSystem) (path : String)
    (hpath : s.audio_filename = some path) (hne : ¬(path = "")) :
    (∀ read_outcome, (playback_try path read_outcome fs).1 = os_remove fs path) ∧
    (os_path_exists fs path = true →
      os_path_exists (audio_playback s fs).1 path = false ∧
      audio_playback s (audio_playback s fs).1 = ((audio_playback s fs).1, [], none)) := by
  have hb : (path = "" : Bool) = false := by simp [hne]
  refine ⟨fun _ => rfl, fun hex => ?_⟩
  obtain ⟨b, hlook⟩ : ∃ b, fs_lookup fs path = some b := by
    cases h : fs_lookup fs path
    · simp [os_path_exists, h] at hex
    · exact ⟨_, rfl⟩
  have h1 : audio_playback s fs = (os_remove fs path, [], some b) := by
    simp [audio_playback, hpath, hb, os_path_exists, hlook, playback_try]
  have h2 : os_path_exists (os_remove fs path) path = false := by
    simp [os_path_exists, fs_lookup_os_remove]
  rw [h1]
  refine ⟨h2, ?_⟩
  simp [audio_playback, hpath, hb, h2]

/-- Witness for C2 amended: the concrete transient file is deleted by the
first pass, also on the error path, and the second pass is silent. -/
theorem C2_read_once_then_deleted_witness :
    (playback_try "temp_audio.wav" (.raised (.other "disk error")) fsWithAudio).1 =
      os_remove fsWithAudio "temp_audio.wav" ∧
    os_path_exists (audio_playback playbackSession fsWithAudio).1 "temp_audio.wav" = false ∧
    audio_playback playbackSession (audio_playback playbackSession fsWithAudio).1 =
      ((audio_playback playbackSession fsWithAudio).1, [], none) := by
  have h := C2_read_once_then_deleted playbackSession fsWithAudio "temp_audio.wav"
    rfl (by decide)
  exact ⟨h.1 _, (h.2 rfl).1, (h.2 rfl).2⟩

/-- C3: for valid image bytes and a model response whose stripped text is a
syntactically valid JSON array of N well-formed english/chinese records,
analyze_image_for_words returns exactly those N records in model order, with
no sorting, deduplication or merging, and emits no error. -/
theorem C3_valid_array_returned_in_order (t : String) (elems : List Json)
    (hs : py_startswith (py_strip t) "[" = true)
    (he : py_endswith (py_strip t) "]" = true)
    (hp : json_loads (py_strip t) = some (Json.arr elems))
    (hwf : ∀ j ∈ elems, ∃ members, j = Json.obj members ∧
      (∃ e, dict_get members "english_name" = some (Json.str e)) ∧
      (∃ c, dict_get members "chinese_name" = some (Json.str c))) :
    analyze_image_for_words (.val ()) (.val ()) (.val t) = (.val (Json.arr elems), []) := by
  rw [analyze_on_text]
  simp [hs, he, hp]

/-- Witness for C3 at the concrete response of the end-to-end scenario. -/
theorem C3_valid_array_returned_in_order_witness :
    analyze_image_for_words (.val ()) (.val ())
      (.val "[\x7b\"english_name\": \"mug\", \"chinese_name\": \"马克杯\"\x7d, \x7b\"english_name\": \"key\", \"chinese_name\": \"钥匙\"\x7d]") =
      (.val (Json.arr
        [Json.obj [("english_name", Json.str "mug"), ("chinese_name", Json.str "马克杯")],
         Json.obj [("english_name", Json.str "key"), ("chinese_name", Json.str "钥匙")]]), []) := by
  refine C3_valid_array_returned_in_order _ _ (by decide) (by decide) (by rfl) ?_
  intro j hj
  simp only [List.mem_cons, List.not_mem_nil, or_false] at hj
  rcases hj with h | h
  · exact ⟨_, h, ⟨"mug", rfl⟩, ⟨"马克杯", rfl⟩⟩
  · exact ⟨_, h, ⟨"key", rfl⟩, ⟨"钥匙", rfl⟩⟩

/-- C4: a response whose stripped text is not bracketed yields an empty list
and exactly one error message; a bracketed response that json.loads rejects
also yields an empty list and exactly one error message; neither case raises. -/
theorem C4_malformed_response_empty_and_one_error (t : String) :
    (¬(py_startswith (py_strip t) "[" = true ∧ py_endswith (py_strip t) "]" = true) →
      analyze_image_for_words (.val ()) (.val ()) (.val t) =
        (.val (Json.arr []), ["AI响应格式不正确"])) ∧
    (py_startswith (py_strip t) "[" = true → py_endswith (py_strip t) "]" = true →
      json_loads (py_strip t) = none →
      analyze_image_for_words (.val ()) (.val ()) (.val t) =
        (.val (Json.arr []), ["无法解析AI响应为JSON格式"])) := by
  constructor
  · intro h
    have hb : (py_startswith (py_strip t) "[" && py_endswith (py_strip t) "]") = false := by
      cases h1 : py_startswith (py_strip t) "[" <;>
        cases h2 : py_endswith (py_strip t) "]" <;> simp_all
    rw [analyze_on_text, hb]
    simp
  · intro hs he hp
    rw [analyze_on_text]
    simp [hs, he, hp]

/-- Witness for C4: a prose response and a bracketed but invalid payload. -/
theorem C4_malformed_response_empty_and_one_error_witness :
    analyze_image_for_words (.val ()) (.val ()) (.val "I see a mug.") =
      (.val (Json.arr []), ["AI响应格式不正确"]) ∧
    analyze_image_for_words (.val ()) (.val ()) (.val "[,]") =
      (.val (Json.arr []), ["无法解析AI响应为JSON格式"]) :=
  ⟨(C4_malformed_response_empty_and_one_error "I see a mug.").1 (by decide),
   (C4_malformed_response_empty_and_one_error "[,]").2 (by decide) (by decide) (by rfl)⟩

/-- C5: every failure condition of the adapter, decode failure, model
invocation failure, a raised text access, a non-bracketed response or a
response json.loads rejects, is caught inside analyze_image_for_words,
converted to one user-visible message, and yields an empty list; on every
input the adapter returns a value rather than raising. -/
theorem C5_all_failures_caught_empty_result
    (decode generate : PyOutcome Unit) (respText : PyOutcome String) :
    (∃ v errs, analyze_image_for_words decode generate respText = (.val v, errs)) ∧
    (∀ e, decode = .raised e →
      analyze_image_for_words decode generate respText =
        (.val (Json.arr []), ["分析图片时发生错误: " ++ e.msg])) ∧
    (∀ e, decode = .val () → generate = .raised e →
      analyze_image_for_words decode generate respText =
        (.val (Json.arr []), ["分析图片时发生错误: " ++ e.msg])) ∧
    (∀ m, decode = .val () → generate = .val () → respText = .raised (.other m) →
      analyze_image_for_words decode generate respText =
        (.val (Json.arr []), ["分析图片时发生错误: " ++ m])) ∧
    (∀ t, decode = .val () → generate = .val () → respText = .val t →
      ¬(py_startswith (py_strip t) "[" = true ∧ py_endswith (py_strip t) "]" = true) →
      analyze_image_for_words decode generate respText =
        (.val (Json.arr []), ["AI响应格式不正确"])) ∧
    (∀ t, decode = .val () → generate = .val () → respText = .val t →
      py_startswith (py_strip t) "[" = true → py_endswith (py_strip t) "]" = true →
      json_loads (py_strip t) = none →
      analyze_image_for_words decode generate respText =
        (.val (Json.arr []), ["无法解析AI响应为JSON格式"])) := by
  refine ⟨?_, ?_, ?_, ?_, ?_, ?_⟩
  · obtain _ | e := decode
    · obtain _ | e := generate
      · obtain t | e := respText
        · rw [analyze_on_text]
          cases hb : (py_startswith (py_strip t) "[" && py_endswith (py_strip t) "]")
          · exact ⟨Json.arr [], ["AI响应格式不正确"], by simp⟩
          · cases hj : json_loads (py_strip t) with
            | none => exact ⟨Json.arr [], ["无法解析AI响应为JSON格式"], by simp⟩
            | some v => exact ⟨v, [], by simp⟩
        · cases e <;> exact ⟨_, _, rfl⟩
      · exact ⟨_, _, rfl⟩
    · exact ⟨_, _, rfl⟩
  · rintro e rfl
    rfl
  · rintro e rfl rfl
    rfl
  · rintro m rfl rfl rfl
    rfl
  · rintro t rfl rfl rfl h
    exact (C4_malformed_response_empty_and_one_error t).1 h
  · rintro t rfl rfl rfl hs he hp
    exact (C4_malformed_response_empty_and_one_error t).2 hs he hp

/-- Witness for C5: a decode failure is caught and converted to one message. -/
theorem C5_all_failures_caught_empty_result_witness :
    analyze_image_for_words (.raised (.other "cannot identify image file"))
      (.val ()) (.val "") =
      (.val (Json.arr []), ["分析图片时发生错误: " ++ "cannot identify image file"]) :=
  (C5_all_failures_caught_empty_result _ _ _).2.1 (.other "cannot identify image file") rfl

/-- C6: every synthesis call is built from the fixed parameter bundle: en-US
locale, the Wavenet female voice en-US-Wavenet-F, MP3 encoding, speaking rate
nine tenths and pitch zero; only the synthesis input text varies, and
get_tts_audio invokes the service at exactly this request. -/
theorem C6_fixed_synthesis_parameters (text_to_speak : String) :
    (tts_request text_to_speak).voice.language_code = "en-US" ∧
    (tts_request text_to_speak).voice.name = "en-US-Wavenet-F" ∧
    (tts_request text_to_speak).voice.ssml_gender = SsmlVoiceGender.female ∧
    (tts_request text_to_speak).audio_config.audio_encoding = AudioEncoding.mp3 ∧
    (tts_request text_to_speak).audio_config.speaking_rate = 9 / 10 ∧
    (tts_request text_to_speak).audio_config.pitch = 0 ∧
    (tts_request text_to_speak).input.text = text_to_speak ∧
    (∀ t2 : String, (tts_request t2).voice = (tts_request text_to_speak).voice ∧
      (tts_request t2).audio_config = (tts_request text_to_speak).audio_config) ∧
    (∀ synthesize : SynthesizeSpeechRequest → PyOutcome Bytes,
      get_tts_audio text_to_speak (.val ()) synthesize =
        match synthesize (tts_request text_to_speak) with
        | .val audio_content => (.val (some audio_content), [])
        | .raised e => (.val none, ["文本转语音失败: " ++ e.msg])) :=
  ⟨rfl, rfl, rfl, rfl, rfl, rfl, rfl, fun _ => ⟨rfl, rfl⟩, fun _ => rfl⟩

/-- C7: any failure of client construction or of the remote synthesis call is
caught, yields exactly one error message and an absent audio result, and
get_tts_audio always returns a value rather than raising. -/
theorem C7_synthesis_failure_caught_absent_result (text_to_speak : String)
    (clientInit : PyOutcome Unit)
    (synthesize : SynthesizeSpeechRequest → PyOutcome Bytes) :
    (∃ r errs, get_tts_audio text_to_speak clientInit synthesize = (.val r, errs)) ∧
    (∀ e, clientInit = .raised e →
      get_tts_audio text_to_speak clientInit synthesize =
        (.val none, ["文本转语音失败: " ++ e.msg])) ∧
    (∀ e, clientInit = .val () → synthesize (tts_request text_to_speak) = .raised e →
      get_tts_audio text_to_speak clientInit synthesize =
        (.val none, ["文本转语音失败: " ++ e.msg])) := by
  refine ⟨?_, ?_, ?_⟩
  · obtain _ | e := clientInit
    · cases hs : synthesize (tts_request text_to_speak) with
      | val a => exact ⟨some a, [], by simp [get_tts_audio, hs]⟩
      | raised e =>
        exact ⟨none, ["文本转语音失败: " ++ e.msg], by simp [get_tts_audio, hs]⟩
    · exact ⟨none, _, rfl⟩
  · rintro e rfl
    rfl
  · rintro e rfl hs
    simp [get_tts_audio, hs]

/-- Witness for C7: a simulated quota failure of the remote call. -/
theorem C7_synthesis_failure_caught_absent_result_witness :
    get_tts_audio "mug" (.val ()) (fun _ => .raised (.other "quota exceeded")) =
      (.val none, ["文本转语音失败: " ++ "quota exceeded"]) :=
  (C7_synthesis_failure_caught_absent_result "mug" (.val ())
    (fun _ => .raised (.other "quota exceeded"))).2.2 (.other "quota exceeded") rfl rfl

/-- C8: a bracketed response that parses as JSON is returned verbatim with no
validation of element shape; the parsed value is the result even when its
elements are not english/chinese records. -/
theorem C8_parsed_array_returned_without_shape_validation (t : String) (v : Json)
    (hs : py_startswith (py_strip t) "[" = true)
    (he : py_endswith (py_strip t) "]" = true)
    (hp : json_loads (py_strip t) = some v) :
    analyze_image_for_words (.val ()) (.val ()) (.val t) = (.val v, []) := by
  rw [analyze_on_text]
  simp [hs, he, hp]

/-- Witness for C8: an array of bare numbers is returned as the result, and a
bare number carries no english_name entry. -/
theorem C8_parsed_array_returned_without_shape_validation_witness :
    analyze_image_for_words (.val ()) (.val ()) (.val "[1, 2, 3]") =
      (.val (Json.arr [Json.num 1, Json.num 2, Json.num 3]), []) ∧
    Json.item (Json.num 1) "english_name" = none :=
  ⟨C8_parsed_array_returned_without_shape_validation "[1, 2, 3]" _
    (by decide) (by decide) (by rfl), rfl⟩

/-- C9: the initialization block assigns each of the six session fields its
default only when the field is absent; a field already holding a value keeps
that value, so re-running the block changes nothing that is already set. -/
theorem C9_init_conditional_per_field (s : RawSessionState) :
    init_session_state s =
      { conversation := some (s.conversation.getD [])
        feedback_log := some (s.feedback_log.getD [])
        current_image := some (s.current_image.getD none)
        audio_filename := some (s.audio_filename.getD none)
        is_recording := some (s.is_recording.getD false)
        analyzed_objects := some (s.analyzed_objects.getD (Json.arr [])) } := by
  obtain ⟨c, f, i, a, r, o⟩ := s
  cases c <;> cases f <;> cases i <;> cases a <;> cases r <;> cases o <;> rfl

/-- C10: the pronounce-button key is the literal pronounce_ concatenated with
the english_name entry alone, so two records sharing an english_name receive
identical keys; uniqueness is not guaranteed when names repeat. -/
theorem C10_pronounce_key_from_name_only (o1 o2 : Json) (n : String)
    (h1 : Json.item o1 "english_name" = some (Json.str n))
    (h2 : Json.item o2 "english_name" = some (Json.str n)) :
    pronounce_key o1 = some ("pronounce_" ++ n) ∧
    pronounce_key o1 = pronounce_key o2 := by
  simp [pronounce_key, h1, h2]

/-- Witness for C10: two distinct records named mug get the same key. -/
theorem C10_pronounce_key_from_name_only_witness :
    pronounce_key mugObject = some ("pronounce_" ++ "mug") ∧
    pronounce_key mugObject =
      pronounce_key (Json.obj [("english_name", Json.str "mug"),
        ("chinese_name", Json.str "杯子")]) :=
  C10_pronounce_key_from_name_only mugObject
    (Json.obj [("english_name", Json.str "mug"), ("chinese_name", Json.str "杯子")])
    "mug" rfl rfl
